import Mathlib

/-!
Shallow embedding of the DelayedNotifier delayed-dispatch engine.

Instants are modelled as `Int` nanoseconds (Go `time.Time` / `time.Duration`
ticks).  UUIDs are modelled as `Nat`.  The Go collaborators (Postgres
repository, Redis client, RabbitMQ publisher, SMTP sender, JSON codec) are
modelled as oracle functions collected in small environment structures; each
Service or Worker function is translated statement by statement from the Go
source and additionally returns a trace of the side-effecting calls it made
(rows inserted, publishes attempted, repository updates issued), so that the
observable behaviour of a run can be stated and proved.
-/

namespace DelayedNotifier

/-- Go `type Status string` from internal/domain/notification.go. -/
abbrev Status := String

def StatusPending : Status := "pending"

def StatusProcessing : Status := "processing"

def StatusSent : Status := "sent"

def StatusFailed : Status := "failed"

def StatusCancelled : Status := "cancelled"

/-- Go `func (s Status) IsValid() bool`: switch over the five tags. -/
def Status.IsValid (s : Status) : Bool :=
  s == StatusPending || s == StatusProcessing || s == StatusSent ||
    s == StatusFailed || s == StatusCancelled

/-- Go `type Channel string` from internal/domain/notification.go. -/
abbrev Channel := String

def ChannelEmail : Channel := "email"

def ChannelTelegram : Channel := "telegram"

/-- Go `func (c Channel) IsValid() bool`: switch over email and telegram. -/
def Channel.IsValid (c : Channel) : Bool :=
  c == ChannelEmail || c == ChannelTelegram

/-- Payload `map[string]interface` is treated as an opaque JSON document;
none of the modelled control flow inspects it. -/
abbrev Payload := List (String × String)

/-- Go `domain.Notification`. -/
structure Notification where
  id : Nat
  recipient : String
  channel : Channel
  payload : Payload
  scheduledAt : Int
  status : Status
  retryCount : Nat
  createdAt : Int
  updatedAt : Int
  deriving DecidableEq, Repr

/-- Error values flowing through the Service and Worker.  Named constructors
stand for the sentinel errors of internal/domain (ErrInvalidChannel and
friends) plus the redis.Nil miss sentinel; `backend` stands for any other
wrapped lower-layer error, tagged by a message. -/
inductive Err where
  | invalidChannel
  | emptyRecipient
  | invalidStatus
  | emptyUpdateOptions
  | noRowAffected
  | notFound
  | redisNil
  | invalidTransition
  | backend (msg : String)
  deriving DecidableEq, Repr

/-- Go `domain.CreateNotificationParams` (the Service input). -/
structure CreateNotificationParams where
  recipient : String
  channel : Channel
  payload : Payload
  scheduledAt : Int
  deriving DecidableEq, Repr

/-- Go `domain.CreateParams` (the repository insert row, carrying the computed
initial status). -/
structure CreateParams where
  recipient : String
  channel : Channel
  status : Status
  payload : Payload
  scheduledAt : Int
  deriving DecidableEq, Repr

/-- Go `domain.UpdateOption` values (WithStatus, WithRetryCountInc,
WithScheduledAt, WithChannel, WithPayload). -/
inductive UpdateOption where
  | withStatus (s : Status)
  | withRetryCountInc
  | withScheduledAt (t : Int)
  | withChannel (c : Channel)
  | withPayload (p : Payload)
  deriving DecidableEq, Repr

/-- Go `domain.UpdateParams` accumulated by folding the options. -/
structure UpdateParams where
  status : Option Status := none
  retryCountInc : Option Bool := none
  scheduledAt : Option Int := none
  channel : Option Channel := none
  payload : Option Payload := none
  deriving DecidableEq, Repr

/-- Application of one UpdateOption closure to the params record. -/
def applyUpdateOption (p : UpdateParams) (o : UpdateOption) : UpdateParams :=
  match o with
  | .withStatus s => { p with status := some s }
  | .withRetryCountInc => { p with retryCountInc := some true }
  | .withScheduledAt t => { p with scheduledAt := some t }
  | .withChannel c => { p with channel := some c }
  | .withPayload pl => { p with payload := some pl }

/-- The loop `for _, opt := range opts { opt(params) }`. -/
def buildUpdateParams (opts : List UpdateOption) : UpdateParams :=
  opts.foldl applyUpdateOption {}

/-- Nanoseconds in one second (`time.Second`). -/
def nsPerSecond : Int := 1000000000

/-- The 2 second grace added in CreateNotification
(`time.Now().Add(2 * time.Second)`). -/
def grace : Int := 2 * nsPerSecond

/-- Cache key used by GetNotificationByID when reading:
the source calls `s.redis.Get(ctx, id.String())`, the bare id. -/
def getCacheReadKey (id : Nat) : String := toString id

/-- Cache key used by marshalAndSet when writing:
`redisKeyPrefix + n.ID.String()` with the constant `"notification:"`. -/
def cacheWriteKey (id : Nat) : String := "notification:" ++ toString id

/-- Oracles for the Service collaborators.  `repoCreate`, `repoGetById`,
`repoUpdate` model the Postgres repository; `cacheGet` and `cacheSet` the
Redis client, with `Except.error .redisNil` as the miss sentinel of `Get`;
`publish` the RabbitMQ delay publisher; `marshal` and `unmarshal` the JSON
codec for Notification values (`unmarshal = none` models a value that does
not parse). -/
structure ServiceEnv where
  repoCreate : CreateParams → Except Err Notification
  repoGetById : Nat → Except Err Notification
  repoUpdate : Nat → List UpdateOption → Option Err
  cacheGet : String → Except Err String
  cacheSet : String → String → Option Err
  publish : Nat → Int → Option Err
  marshal : Notification → String
  unmarshal : String → Option Notification

/-- Initial status and ttl computed by CreateNotification: with
`cur = now + 2 s`, a scheduledAt strictly before `cur` gives
(processing, 2 s), otherwise (pending, scheduledAt - cur). -/
def initialStatusTtl (now schedAt : Int) : Status × Int :=
  if schedAt < now + grace then (StatusProcessing, grace)
  else (StatusPending, schedAt - (now + grace))

/-- Insert row assembled by CreateNotification before calling repo.Create. -/
def createOpt (now : Int) (p : CreateNotificationParams) : CreateParams :=
  { recipient := p.recipient
    channel := p.channel
    status := (initialStatusTtl now p.scheduledAt).1
    payload := p.payload
    scheduledAt := p.scheduledAt }

/-- Delay passed to publisher.Publish by CreateNotification. -/
def createTtl (now schedAt : Int) : Int := (initialStatusTtl now schedAt).2

/-- Result of a CreateNotification run: the returned value or error, the
insert rows passed to repo.Create, and the publishes attempted (id, ttl). -/
structure CreateResult where
  res : Except Err Notification
  inserts : List CreateParams
  publishCalls : List (Nat × Int)

/-- Translation of `NotificationService.CreateNotification`
(internal/service/notification_service.go, lines 35 to 85). -/
def createNotification (env : ServiceEnv) (now : Int)
    (p : CreateNotificationParams) : CreateResult :=
  if ¬ Channel.IsValid p.channel then ⟨.error .invalidChannel, [], []⟩
  else if p.recipient = "" then ⟨.error .emptyRecipient, [], []⟩
  else
    let opt := createOpt now p
    let ttl := createTtl now p.scheduledAt
    match env.repoCreate opt with
    | .error e => ⟨.error e, [opt], []⟩
    | .ok n =>
      match env.cacheSet (cacheWriteKey n.id) (env.marshal n) with
      | some e => ⟨.error e, [opt], []⟩
      | none =>
        match env.publish n.id ttl with
        | none => ⟨.ok n, [opt], [(n.id, ttl)]⟩
        | some _ =>
          match env.repoUpdate n.id [.withStatus StatusPending] with
          | some e2 => ⟨.error e2, [opt], [(n.id, ttl)]⟩
          | none => ⟨.ok { n with status := StatusPending }, [opt], [(n.id, ttl)]⟩

/-- Result of a GetNotificationByID run: the Go function returns a pointer
and an error; `.ok none` models a nil pointer together with a nil error.
`repoGets` records the ids fetched from the Store. -/
structure GetResult where
  res : Except Err (Option Notification)
  repoGets : List Nat

/-- Translation of `NotificationService.GetNotificationByID`
(internal/service/notification_service.go, lines 128 to 163).  On a cache
hit whose bytes do not parse, the source only logs the unmarshal error and
returns the still-nil pointer with a nil error, which is `.ok none` here. -/
def getNotificationById (env : ServiceEnv) (id : Nat) : GetResult :=
  match env.cacheGet (getCacheReadKey id) with
  | .ok s => ⟨.ok (env.unmarshal s), []⟩
  | .error e =>
    if e = .redisNil then
      match env.repoGetById id with
      | .error e2 => ⟨.error e2, [id]⟩
      | .ok n =>
        match env.cacheSet (cacheWriteKey n.id) (env.marshal n) with
        | some e3 => ⟨.error e3, [id]⟩
        | none => ⟨.ok (some n), [id]⟩
    else ⟨.error e, []⟩

/-- Result of an UpdateNotification run: the returned error (or unit), the
notification as mutated through the pointer, and the update calls that
reached repo.Update. -/
structure UpdateResult where
  res : Except Err Unit
  notif : Notification
  repoUpdates : List (Nat × List UpdateOption)

/-- Translation of `NotificationService.UpdateNotification`
(internal/service/notification_service.go, lines 87 to 126).  Note the
source checks `if params.Channel.IsValid()` and rejects in that case, so a
VALID channel is rejected with ErrInvalidChannel and an invalid one is
assigned and processed.  A repo.Update failure equal to ErrNoRowAffected is
swallowed (nil error returned, cache not refreshed). -/
def updateNotification (env : ServiceEnv) (n : Notification)
    (opts : List UpdateOption) : UpdateResult :=
  if opts = [] then ⟨.error .emptyUpdateOptions, n, []⟩
  else
    let params := buildUpdateParams opts
    let stStep : Except Err Notification :=
      match params.status with
      | some s => if ¬ Status.IsValid s then .error .invalidStatus
                  else .ok { n with status := s }
      | none => .ok n
    match stStep with
    | .error e => ⟨.error e, n, []⟩
    | .ok n1 =>
      let chStep : Except Err Notification :=
        match params.channel with
        | some c => if Channel.IsValid c then .error .invalidChannel
                    else .ok { n1 with channel := c }
        | none => .ok n1
      match chStep with
      | .error e => ⟨.error e, n1, []⟩
      | .ok n2 =>
        match env.repoUpdate n.id opts with
        | some e =>
          if e = .noRowAffected then ⟨.ok (), n2, [(n.id, opts)]⟩
          else ⟨.error e, n2, [(n.id, opts)]⟩
        | none =>
          match env.cacheSet (cacheWriteKey n2.id) (env.marshal n2) with
          | some e => ⟨.error e, n2, [(n.id, opts)]⟩
          | none => ⟨.ok (), n2, [(n.id, opts)]⟩

/-- Outcome of transitionStatus: the source dereferences the pointer
returned by GetNotificationByID without a nil check, so a `.ok none` lookup
result is a nil dereference. -/
inductive TransOutcome where
  | ok
  | err (e : Err)
  | nilDeref
  deriving DecidableEq, Repr

/-- Result of a transitionStatus run. -/
structure TransResult where
  outcome : TransOutcome
  repoUpdates : List (Nat × List UpdateOption)

/-- Translation of `NotificationService.transitionStatus`
(internal/service/notification_service.go, lines 165 to 191).  The status
mismatch error is built with fmt.Errorf in the source; it is modelled by the
`invalidTransition` tag. -/
def transitionStatus (env : ServiceEnv) (id : Nat)
    (allowedStatus statusUpdater : Status) : TransResult :=
  match (getNotificationById env id).res with
  | .error e => ⟨.err e, []⟩
  | .ok none => ⟨.nilDeref, []⟩
  | .ok (some n) =>
    if n.status ≠ allowedStatus then ⟨.err .invalidTransition, []⟩
    else
      let u := updateNotification env n [.withStatus statusUpdater]
      match u.res with
      | .error e => ⟨.err e, u.repoUpdates⟩
      | .ok _ => ⟨.ok, u.repoUpdates⟩

/-- Go `NotificationService.Cancel`: pending to cancelled. -/
def cancelNotification (env : ServiceEnv) (id : Nat) : TransResult :=
  transitionStatus env id StatusPending StatusCancelled

/-- Go `NotificationService.Failed`: processing to failed. -/
def failedNotification (env : ServiceEnv) (id : Nat) : TransResult :=
  transitionStatus env id StatusProcessing StatusFailed

/-- Go `NotificationService.IncRetryCount`: update with retryCountInc. -/
def incRetryCount (env : ServiceEnv) (n : Notification) : UpdateResult :=
  updateNotification env n [.withRetryCountInc]

/-- The hardcoded `INTERVAL 10 minutes` of the stuck-row predicate
in ListPendingAndProcessingBefore. -/
def stuckThreshold : Int := 10 * 60 * nsPerSecond

/-- Row predicate of the SQL of `PostgresRepo.ListPendingAndProcessingBefore`
(internal/repository/pg, lines 125 to 176).  The source text is
`scheduled_at <= $1 AND status = $2 OR (status = $3 AND updated_at < NOW() -
INTERVAL 10 minutes)` with $2 = pending, $3 = processing; SQL gives AND a
higher precedence than OR, so the predicate is
(scheduledAt <= t and pending) or (processing and updatedAt < now - 10 min). -/
def dueOrStuck (now t : Int) (r : Notification) : Bool :=
  (decide (r.scheduledAt ≤ t) && (r.status == StatusPending)) ||
    ((r.status == StatusProcessing) && decide (r.updatedAt < now - stuckThreshold))

/-- Application of the LIMIT and OFFSET clauses, each appended to the query
only when positive; SQL applies OFFSET before LIMIT. -/
def clipRows (limit offst : Int) (rows : List Notification) : List Notification :=
  if 0 < limit then
    (if 0 < offst then rows.drop offst.toNat else rows).take limit.toNat
  else if 0 < offst then rows.drop offst.toNat else rows

/-- Translation of `PostgresRepo.ListPendingAndProcessingBefore` over a table
modelled as a list of rows.  An empty result is turned into ErrNotFound by
the source. -/
def listPendingAndProcessingBefore (table : List Notification) (now t : Int)
    (limit offst : Int) : Except Err (List Notification) :=
  if clipRows limit offst (table.filter (dueOrStuck now t)) = [] then
    .error .notFound
  else .ok (clipRows limit offst (table.filter (dueOrStuck now t)))

/-- Translation of `PostgresRepo.PendingToProcess`: the single statement
`UPDATE notifications SET status = processing WHERE id = $2 AND status =
pending`, reporting whether a row was affected.  Returns the updated table
and the RowsAffected > 0 flag. -/
def pendingToProcess (table : List Notification) (id : Nat) :
    List Notification × Bool :=
  let affected := table.filter (fun r => r.id == id && r.status == StatusPending)
  let table1 := table.map (fun r =>
    if r.id == id && r.status == StatusPending
    then { r with status := StatusProcessing } else r)
  (table1, ¬ affected = [])

/-- Oracles for the Worker collaborators on top of the Service environment:
`unmarshalJob` models json.Unmarshal of the message body into a Job (the
notification id field), `parseUuid` models uuid.Parse, `emailSend` gives the
outcome of the n-th SMTP send attempt, and `attempts` is the bounded retry
budget of the strategy (default 3). -/
structure WorkerEnv where
  svc : ServiceEnv
  unmarshalJob : String → Option String
  parseUuid : String → Option Nat
  emailSend : Nat → Option Err
  attempts : Nat

/-- Outcome of one Consumer.sender run: `ok` is a nil error (the message is
acknowledged), `fail` a non-nil error (negative acknowledgement), `nilDeref`
a dereference of the nil notification pointer. -/
inductive WorkerOutcome where
  | ok
  | fail (e : Err)
  | nilDeref
  deriving DecidableEq, Repr

/-- Result of one Consumer.sender run with its observable trace:
`claimCalls` records every invocation of the atomic claim
(PostgresRepo.PendingToProcess) made during the run, `sendAttempts` the
number of SMTP send attempts, `repoUpdates` the repository update calls
issued through the Service. -/
structure WorkerResult where
  outcome : WorkerOutcome
  claimCalls : List Nat
  sendAttempts : Nat
  repoUpdates : List (Nat × List UpdateOption)

/-- One execution of the `sendEmail` closure of Consumer.sender: on a send
error, IncRetryCount is called; when that itself fails its error replaces
the send error as the closure result. -/
def sendEmailOnce (env : WorkerEnv) (n : Notification) (attempt : Nat) :
    Option Err × List (Nat × List UpdateOption) :=
  match env.emailSend attempt with
  | none => (none, [])
  | some e =>
    let u := incRetryCount env.svc n
    match u.res with
    | .error errInc => (some errInc, u.repoUpdates)
    | .ok _ => (some e, u.repoUpdates)

/-- Modelled from the spec: the package pkg/retry belongs to this repository
but is absent from src (only its callers are present).  Section 4.5 of the
spec gives the contract of retry.Do: run the operation under a bounded
number of attempts, stop at the first success, and surface the last error
when every attempt fails; the waits between attempts are timing only and are
not modelled.  Returns the final result, the number of attempts made, and
the accumulated update trace. -/
def retryDo (env : WorkerEnv) (n : Notification) (start : Nat) :
    Nat → Option Err × Nat × List (Nat × List UpdateOption)
  | 0 => (some (.backend "retry: zero attempts"), 0, [])
  | 1 =>
    let (r, tr) := sendEmailOnce env n start
    (r, 1, tr)
  | Nat.succ (Nat.succ k) =>
    let (r, tr) := sendEmailOnce env n start
    match r with
    | none => (none, 1, tr)
    | some _ =>
      let (r2, c, tr2) := retryDo env n (start + 1) (Nat.succ k)
      (r2, c + 1, tr ++ tr2)

/-- Translation of `Consumer.sender` (internal/worker, lines 65 to 128).
After GetNotificationByID the source only logs a non-nil error and then
reads n.Status, so an error result (nil pointer) is a nil dereference.  A
cancelled notification returns the (nil) error from the lookup.  The email
branch runs the retry loop and on final failure calls Service.Failed and
returns the retry error; the telegram branch does nothing; both fall
through to UpdateNotification with StatusSent.  No branch invokes
PendingToProcess. -/
def senderRun (env : WorkerEnv) (body : String) : WorkerResult :=
  match env.unmarshalJob body with
  | none => ⟨.fail (.backend "json: unmarshal body"), [], 0, []⟩
  | some idStr =>
    match env.parseUuid idStr with
    | none => ⟨.fail (.backend "uuid: parse"), [], 0, []⟩
    | some id =>
      match (getNotificationById env.svc id).res with
      | .error _ => ⟨.nilDeref, [], 0, []⟩
      | .ok none => ⟨.nilDeref, [], 0, []⟩
      | .ok (some n) =>
        if n.status = StatusCancelled then ⟨.ok, [], 0, []⟩
        else if n.channel = ChannelEmail then
          let (r, cnt, tr) := retryDo env n 0 env.attempts
          match r with
          | some e =>
            let f := failedNotification env.svc n.id
            ⟨.fail e, [], cnt, tr ++ f.repoUpdates⟩
          | none =>
            let u := updateNotification env.svc n [.withStatus StatusSent]
            match u.res with
            | .error e2 => ⟨.fail e2, [], cnt, tr ++ u.repoUpdates⟩
            | .ok _ => ⟨.ok, [], cnt, tr ++ u.repoUpdates⟩
        else if n.channel = ChannelTelegram then
          let u := updateNotification env.svc n [.withStatus StatusSent]
          match u.res with
          | .error e2 => ⟨.fail e2, [], 0, u.repoUpdates⟩
          | .ok _ => ⟨.ok, [], 0, u.repoUpdates⟩
        else ⟨.fail (.backend "unknown channel"), [], 0, []⟩

/-- Repository create oracle used by concrete runs: inserts the row under
id 1 with zero retry count and zero timestamps, echoing the requested
fields, as the INSERT ... RETURNING of the source does. -/
def repoCreateEcho (opt : CreateParams) : Except Err Notification :=
  .ok { id := 1, recipient := opt.recipient, channel := opt.channel,
        payload := opt.payload, scheduledAt := opt.scheduledAt,
        status := opt.status, retryCount := 0, createdAt := 0, updatedAt := 0 }

/-- Environment in which every collaborator succeeds and the cache always
misses. -/
def envOkAll : ServiceEnv where
  repoCreate := repoCreateEcho
  repoGetById := fun _ => .error .notFound
  repoUpdate := fun _ _ => none
  cacheGet := fun _ => .error .redisNil
  cacheSet := fun _ _ => none
  publish := fun _ _ => none
  marshal := fun _ => ""
  unmarshal := fun _ => none

/-- A pending telegram notification stored under id 7. -/
def pendingTelegram : Notification :=
  { id := 7, recipient := "a@b.c", channel := ChannelTelegram, payload := [],
    scheduledAt := 0, status := StatusPending, retryCount := 0,
    createdAt := 0, updatedAt := 0 }

/-- A pending email notification stored under id 8. -/
def pendingEmail : Notification :=
  { id := 8, recipient := "a@b.c", channel := ChannelEmail, payload := [],
    scheduledAt := 0, status := StatusPending, retryCount := 0,
    createdAt := 0, updatedAt := 0 }

/-- Service environment whose Store holds `pendingTelegram`. -/
def envTelegram : ServiceEnv :=
  { envOkAll with
    repoGetById := fun i => if i = 7 then .ok pendingTelegram else .error .notFound }

/-- Worker environment dispatching on the Store of `envTelegram`. -/
def wenvTelegram : WorkerEnv where
  svc := envTelegram
  unmarshalJob := fun _ => some "7"
  parseUuid := fun _ => some 7
  emailSend := fun _ => some (.backend "smtp")
  attempts := 3

/-- Service environment whose Store holds `pendingEmail`. -/
def envEmail : ServiceEnv :=
  { envOkAll with
    repoGetById := fun i => if i = 8 then .ok pendingEmail else .error .notFound }

/-- Worker environment dispatching on the Store of `envEmail`; the SMTP send
succeeds on the first attempt. -/
def wenvEmail : WorkerEnv where
  svc := envEmail
  unmarshalJob := fun _ => some "8"
  parseUuid := fun _ => some 8
  emailSend := fun _ => none
  attempts := 3

/-- Service environment whose cache read fails with a transient error. -/
def envGetErr : ServiceEnv :=
  { envOkAll with cacheGet := fun _ => .error (.backend "redis down") }

/-- Worker environment in which the Service lookup fails. -/
def wenvGetErr : WorkerEnv where
  svc := envGetErr
  unmarshalJob := fun _ => some "9"
  parseUuid := fun _ => some 9
  emailSend := fun _ => none
  attempts := 3

/-- A pending row due at instant 0. -/
def duePending : Notification :=
  { id := 3, recipient := "r", channel := ChannelEmail, payload := [],
    scheduledAt := 0, status := StatusPending, retryCount := 0,
    createdAt := 0, updatedAt := 0 }

/-- Create request scheduled one hour in the future. -/
def pFuture : CreateNotificationParams :=
  { recipient := "a@b.c", channel := ChannelEmail, payload := [],
    scheduledAt := 3600 * nsPerSecond }

/-- Row returned by `repoCreateEcho` for `pFuture` at now = 0. -/
def nFuture : Notification :=
  { id := 1, recipient := "a@b.c", channel := ChannelEmail, payload := [],
    scheduledAt := 3600 * nsPerSecond, status := StatusPending,
    retryCount := 0, createdAt := 0, updatedAt := 0 }

/-- Create request whose scheduled time is already past. -/
def pPast : CreateNotificationParams :=
  { recipient := "a@b.c", channel := ChannelEmail, payload := [],
    scheduledAt := 0 }

/-- Row returned by `repoCreateEcho` for `pPast` at now = 0. -/
def nPast : Notification :=
  { id := 1, recipient := "a@b.c", channel := ChannelEmail, payload := [],
    scheduledAt := 0, status := StatusProcessing, retryCount := 0,
    createdAt := 0, updatedAt := 0 }

/-- Environment whose bus publish fails. -/
def envPubFail : ServiceEnv :=
  { envOkAll with publish := fun _ _ => some (.backend "bus down") }

/-- Environment whose cache write fails. -/
def envCacheFail : ServiceEnv :=
  { envOkAll with cacheSet := fun _ _ => some (.backend "redis set") }

/-- Second environment whose cache write fails, with a distinct message. -/
def envCacheFail2 : ServiceEnv :=
  { envOkAll with cacheSet := fun _ _ => some (.backend "redis refused") }

/-- A pending row stored under id 10, for the corrupted-cache run. -/
def storedPending : Notification :=
  { id := 10, recipient := "r", channel := ChannelEmail, payload := [],
    scheduledAt := 0, status := StatusPending, retryCount := 0,
    createdAt := 0, updatedAt := 0 }

/-- Environment whose cache hit yields bytes that do not parse while the
Store does hold the row. -/
def envBadCache : ServiceEnv :=
  { envOkAll with
    cacheGet := fun _ => .ok "garbage"
    repoGetById := fun i => if i = 10 then .ok storedPending else .error .notFound }

/-- Rows surviving LIMIT and OFFSET form a subset of the input rows. -/
theorem clipRows_subset (limit offst : Int) (rows : List Notification) :
    clipRows limit offst rows ⊆ rows := by
  unfold clipRows
  split
  · refine (List.take_subset _ _).trans ?_
    split
    · exact List.drop_subset _ _
    · exact fun a ha => ha
  · split
    · exact List.drop_subset _ _
    · exact fun a ha => ha

/-- C3: every notification returned by listDueOrStuck
(ListPendingAndProcessingBefore) at cutoff t is in status pending or
processing; a pending row satisfies scheduledAt at most t, and every row
satisfies (pending and scheduledAt at most t) or (processing and updatedAt
before now minus the 10 minute stuck threshold); hence no row in any other
status and no pending row scheduled after t is ever returned. -/
theorem listDueOrStuck_sound (table : List Notification) (now t limit offst : Int)
    (rows : List Notification) (r : Notification)
    (hres : listPendingAndProcessingBefore table now t limit offst = .ok rows)
    (hmem : r ∈ rows) :
    (r.status = StatusPending ∨ r.status = StatusProcessing) ∧
    (r.status = StatusPending → r.scheduledAt ≤ t) ∧
    ((r.status = StatusPending ∧ r.scheduledAt ≤ t) ∨
      (r.status = StatusProcessing ∧ r.updatedAt < now - stuckThreshold)) := by
  unfold listPendingAndProcessingBefore at hres
  split at hres
  · simp at hres
  · simp only [Except.ok.injEq] at hres
    subst hres
    have hf : r ∈ table.filter (dueOrStuck now t) :=
      clipRows_subset limit offst _ hmem
    have hdue := (List.mem_filter.mp hf).2
    unfold dueOrStuck at hdue
    simp only [Bool.or_eq_true, Bool.and_eq_true, beq_iff_eq,
      decide_eq_true_eq] at hdue
    rcases hdue with ⟨h1, h2⟩ | ⟨h1, h2⟩
    · exact ⟨Or.inl h2, fun _ => h1, Or.inl ⟨h2, h1⟩⟩
    · refine ⟨Or.inr h1, fun hp => ?_, Or.inr ⟨h1, h2⟩⟩
      exact absurd (hp.symm.trans h1) (by decide)

/-- Witness for C3 on a concrete table holding one due pending row. -/
theorem listDueOrStuck_sound_witness :
    (duePending.status = StatusPending ∨ duePending.status = StatusProcessing) ∧
    (duePending.status = StatusPending → duePending.scheduledAt ≤ 5) ∧
    ((duePending.status = StatusPending ∧ duePending.scheduledAt ≤ 5) ∨
      (duePending.status = StatusProcessing ∧
        duePending.updatedAt < 100 - stuckThreshold)) :=
  listDueOrStuck_sound [duePending] 100 5 0 0 [duePending] duePending rfl
    (List.mem_singleton.mpr rfl)

/-- C4: a create request with valid channel and non-empty recipient whose
insert and cache write succeed is inserted exactly once with the computed
initial status and published exactly once with the computed ttl: status
processing and ttl equal to the 2 second grace when scheduledAt is earlier
than now plus grace, status pending and ttl equal to scheduledAt minus (now
plus grace) otherwise. -/
theorem createNotification_initial (env : ServiceEnv) (now : Int)
    (p : CreateNotificationParams) (n : Notification)
    (hch : Channel.IsValid p.channel = true)
    (hrec : ¬ p.recipient = "")
    (hc : env.repoCreate (createOpt now p) = .ok n)
    (hset : env.cacheSet (cacheWriteKey n.id) (env.marshal n) = none) :
    (createNotification env now p).inserts = [createOpt now p] ∧
    (createNotification env now p).publishCalls =
      [(n.id, createTtl now p.scheduledAt)] ∧
    (createOpt now p).status =
      (if p.scheduledAt < now + grace then StatusProcessing else StatusPending) ∧
    createTtl now p.scheduledAt =
      (if p.scheduledAt < now + grace then grace
       else p.scheduledAt - (now + grace)) := by
  refine ⟨?_, ?_, ?_, ?_⟩
  · unfold createNotification
    rw [if_neg (by simp [hch]), if_neg hrec]
    simp only [hc, hset]
    rcases hp : env.publish n.id (createTtl now p.scheduledAt) with _ | e
    · simp [hp]
    · simp only [hp]
      rcases hu : env.repoUpdate n.id [.withStatus StatusPending] with _ | e2 <;>
        simp [hu]
  · unfold createNotification
    rw [if_neg (by simp [hch]), if_neg hrec]
    simp only [hc, hset]
    rcases hp : env.publish n.id (createTtl now p.scheduledAt) with _ | e
    · simp [hp]
    · simp only [hp]
      rcases hu : env.repoUpdate n.id [.withStatus StatusPending] with _ | e2 <;>
        simp [hu]
  · unfold createOpt initialStatusTtl
    by_cases hlt : p.scheduledAt < now + grace <;> simp [hlt]
  · unfold createTtl initialStatusTtl
    by_cases hlt : p.scheduledAt < now + grace <;> simp [hlt]

/-- Witness for C4 with a request scheduled one hour ahead at now = 0. -/
theorem createNotification_initial_witness :
    (createNotification envOkAll 0 pFuture).inserts = [createOpt 0 pFuture] ∧
    (createNotification envOkAll 0 pFuture).publishCalls =
      [(nFuture.id, createTtl 0 pFuture.scheduledAt)] ∧
    (createOpt 0 pFuture).status =
      (if pFuture.scheduledAt < 0 + grace then StatusProcessing
       else StatusPending) ∧
    createTtl 0 pFuture.scheduledAt =
      (if pFuture.scheduledAt < 0 + grace then grace
       else pFuture.scheduledAt - (0 + grace)) :=
  createNotification_initial envOkAll 0 pFuture nFuture rfl (by decide) rfl rfl

/-- C5: when the insert and the cache write succeed and the bus publish
fails, CreateNotification rolls the stored status back to pending (the
compensating repo.Update succeeds) and returns the notification with status
pending and no error. -/
theorem createNotification_publishFail (env : ServiceEnv) (now : Int)
    (p : CreateNotificationParams) (n : Notification) (e : Err)
    (hch : Channel.IsValid p.channel = true)
    (hrec : ¬ p.recipient = "")
    (hc : env.repoCreate (createOpt now p) = .ok n)
    (hset : env.cacheSet (cacheWriteKey n.id) (env.marshal n) = none)
    (hpub : env.publish n.id (createTtl now p.scheduledAt) = some e)
    (hroll : env.repoUpdate n.id [.withStatus StatusPending] = none) :
    (createNotification env now p).res = .ok { n with status := StatusPending } ∧
    (createNotification env now p).publishCalls =
      [(n.id, createTtl now p.scheduledAt)] := by
  unfold createNotification
  rw [if_neg (by simp [hch]), if_neg hrec]
  simp only [hc, hset, hpub, hroll]
  simp

/-- Witness for C5 with a past-scheduled request and a failing bus. -/
theorem createNotification_publishFail_witness :
    (createNotification envPubFail 0 pPast).res =
      .ok { nPast with status := StatusPending } ∧
    (createNotification envPubFail 0 pPast).publishCalls =
      [(nPast.id, createTtl 0 pPast.scheduledAt)] :=
  createNotification_publishFail envPubFail 0 pPast nPast (.backend "bus down")
    rfl (by decide) rfl rfl rfl rfl

/-- C1 fails on the code: a dispatch run on a notification stored as
pending with channel telegram performs zero Sender attempts, yet issues the
repository update setting status sent and acknowledges; the status
transition pending to sent happens without any delivery attempt, outside
the permitted set of the state machine. -/
theorem worker_sent_without_attempt :
    pendingTelegram.status = StatusPending ∧
    pendingTelegram.channel = ChannelTelegram ∧
    (senderRun wenvTelegram "body").sendAttempts = 0 ∧
    (senderRun wenvTelegram "body").repoUpdates =
      [(7, [.withStatus StatusSent])] ∧
    (senderRun wenvTelegram "body").outcome = .ok :=
  ⟨rfl, rfl, rfl, rfl, rfl⟩

/-- C2 fails on the code: no run of Consumer.sender ever invokes the atomic
claim (PendingToProcess); concretely, a dispatch on a notification stored as
pending with channel email proceeds straight to the Sender (one attempt)
with an empty claim trace and acknowledges. -/
theorem worker_never_claims :
    (∀ (env : WorkerEnv) (body : String), (senderRun env body).claimCalls = []) ∧
    pendingEmail.status = StatusPending ∧
    (senderRun wenvEmail "body").claimCalls = [] ∧
    (senderRun wenvEmail "body").sendAttempts = 1 ∧
    (senderRun wenvEmail "body").outcome = .ok := by
  refine ⟨?_, rfl, rfl, rfl, rfl⟩
  intro env body
  unfold senderRun
  repeat' split
  all_goals first
    | rfl
    | (dsimp only; split <;> rfl)

/-- C6 fails on the code: UpdateNotification rejects the valid channel
email with ErrInvalidChannel, while the invalid channel sms is accepted,
assigned to the notification and written through. -/
theorem updateNotification_channel_inverted :
    (updateNotification envOkAll pendingEmail
      [.withChannel ChannelEmail]).res = .error .invalidChannel ∧
    Channel.IsValid ChannelEmail = true ∧
    (updateNotification envOkAll pendingEmail [.withChannel "sms"]).res =
      .ok () ∧
    (updateNotification envOkAll pendingEmail
      [.withChannel "sms"]).notif.channel = "sms" ∧
    Channel.IsValid "sms" = false :=
  ⟨rfl, rfl, rfl, rfl, rfl⟩

/-- C7 counterexample: with a successful insert and a failing cache write,
CreateNotification returns the cache error to the caller and never reaches
the bus publish, contrary to the claim that the call still publishes and
returns the notification without error. -/
theorem create_cacheFail_counterexample :
    (createNotification envCacheFail 0 pFuture).res =
      .error (.backend "redis set") ∧
    (createNotification envCacheFail 0 pFuture).publishCalls = [] ∧
    (createNotification envCacheFail 0 pFuture).inserts =
      [createOpt 0 pFuture] :=
  ⟨rfl, rfl, rfl⟩

/-- C7 as amended: when the insert succeeds and the cache write fails,
CreateNotification fails the call, returning the cache error, and performs
no bus publish. -/
theorem create_cacheFail_aborts (env : ServiceEnv) (now : Int)
    (p : CreateNotificationParams) (n : Notification) (e : Err)
    (hch : Channel.IsValid p.channel = true)
    (hrec : ¬ p.recipient = "")
    (hc : env.repoCreate (createOpt now p) = .ok n)
    (hset : env.cacheSet (cacheWriteKey n.id) (env.marshal n) = some e) :
    (createNotification env now p).res = .error e ∧
    (createNotification env now p).publishCalls = [] := by
  unfold createNotification
  rw [if_neg (by simp [hch]), if_neg hrec]
  simp only [hc, hset]
  simp

/-- Witness for the amended C7 on a second failing-cache environment. -/
theorem create_cacheFail_aborts_witness :
    (createNotification envCacheFail2 0 pPast).res =
      .error (.backend "redis refused") ∧
    (createNotification envCacheFail2 0 pPast).publishCalls = [] :=
  create_cacheFail_aborts envCacheFail2 0 pPast nPast (.backend "redis refused")
    rfl (by decide) rfl rfl

/-- C8 fails on the code: when the cache returns bytes that do not parse,
GetNotificationByID returns a nil notification with a nil error, performs no
Store lookup at all, even though the Store holds the row. -/
theorem getById_unparseableCache :
    (getNotificationById envBadCache 10).res = .ok none ∧
    (getNotificationById envBadCache 10).repoGets = [] ∧
    envBadCache.repoGetById 10 = .ok storedPending :=
  ⟨rfl, rfl, rfl⟩

/-- C9 fails on the code: the cache key read by GetNotificationByID is the
bare id string while the write-through key carries the notification: marker,
so the two keys differ for every id and a service-written entry is never
read back. -/
theorem cacheKeys_mismatch :
    (∀ id : Nat, decide (getCacheReadKey id = cacheWriteKey id) = false) ∧
    getCacheReadKey 7 = "7" ∧ cacheWriteKey 7 = "notification:7" := by
  refine ⟨fun id => ?_, rfl, rfl⟩
  rw [decide_eq_false_iff_not]
  intro h
  have hlen : (getCacheReadKey id).length = (cacheWriteKey id).length := by
    rw [h]
  unfold getCacheReadKey cacheWriteKey at hlen
  rw [String.length_append] at hlen
  have h13 : ("notification:".length) = 13 := rfl
  omega

/-- C10 fails on the code: when the Service lookup returns an error (and a
nil notification), Consumer.sender only logs, then reads the status field of
the nil pointer, a nil dereference that crashes the handler instead of
returning an error or acknowledging. -/
theorem worker_nilDeref_on_getError :
    (getNotificationById envGetErr 9).res = .error (.backend "redis down") ∧
    (senderRun wenvGetErr "body").outcome = .nilDeref :=
  ⟨rfl, rfl⟩

end DelayedNotifier
